import Mathlib

/-!
Shallow embedding of the Express/Gemini generation proxy in src/index.js:
JavaScript values, the POST /api/generate handler, the GET / route, startup
client construction and port configuration, together with theorems about the
specified request/response behavior.
-/

/-- JavaScript values, to the extent the proxy manipulates them. Numbers are
modelled as integers. -/
inductive JsVal where
  | undefined : JsVal
  | null : JsVal
  | bool : Bool → JsVal
  | num : Int → JsVal
  | str : String → JsVal
  | arr : List JsVal → JsVal
  | obj : List (String × JsVal) → JsVal

/-- JavaScript truthiness, as used by the handler's checks. -/
def truthy : JsVal → Bool
  | .undefined => false
  | .null => false
  | .bool b => b
  | .num n => n != 0
  | .str s => s != ""
  | .arr _ => true
  | .obj _ => true

/-- Whether a value is the JavaScript undefined value. -/
def JsVal.isUndefined : JsVal → Bool
  | .undefined => true
  | _ => false

/-- Property access v.key: throws a TypeError on undefined and null, looks the
key up on an object (undefined when absent), and yields undefined on other
values. -/
def getProp (v : JsVal) (key : String) : Except Unit JsVal :=
  match v with
  | .undefined => .error ()
  | .null => .error ()
  | .obj fields => .ok ((fields.lookup key).getD .undefined)
  | _ => .ok .undefined

/-- Indexed access v[i] for a numeric index: throws on undefined and null,
indexes arrays and strings (undefined out of range), looks the decimal key up
on objects, and yields undefined otherwise. -/
def getIndex (v : JsVal) (i : Nat) : Except Unit JsVal :=
  match v with
  | .undefined => .error ()
  | .null => .error ()
  | .arr xs => .ok ((xs.get? i).getD .undefined)
  | .obj fields => .ok ((fields.lookup (toString i)).getD .undefined)
  | .str s => .ok (match s.data.get? i with
      | some c => .str (String.mk [c])
      | none => .undefined)
  | _ => .ok .undefined

/-- One content part of the upstream request payload; text holds the request
prompt value. -/
structure MsgPart where
  text : JsVal

/-- One role-tagged message of the upstream request payload. -/
structure MsgContent where
  role : String
  parts : List MsgPart

/-- The generation configuration of the upstream request payload. -/
structure GenConfig where
  maxOutputTokens : Nat

/-- The payload passed to ai.models.generateContent. -/
structure GenRequest where
  model : String
  contents : List MsgContent
  config : GenConfig

/-- The upstream request built from a prompt (source lines 134-141). -/
def buildRequest (prompt : JsVal) : GenRequest :=
  { model := "gemini-2.5-flash"
    contents := [{ role := "user", parts := [{ text := prompt }] }]
    config := { maxOutputTokens := 256 } }

/-- The extraction response.candidates[0].content.parts[0].text performed on
the upstream response value (source line 143); a TypeError is an error. -/
def firstCandidateText (resp : JsVal) : Except Unit JsVal := do
  let cands ← getProp resp "candidates"
  let c0 ← getIndex cands 0
  let content ← getProp c0 "content"
  let parts ← getProp content "parts"
  let p0 ← getIndex parts 0
  getProp p0 "text"

/-- The destructuring const prompt = req.body.prompt on the parsed JSON
object body (source line 128). -/
def promptOf (body : List (String × JsVal)) : JsVal :=
  (body.lookup "prompt").getD JsVal.undefined

/-- The object that res.json serializes from the given properties: properties
whose value is undefined are dropped, as JSON.stringify does. -/
def jsonBody (fields : List (String × JsVal)) : JsVal :=
  JsVal.obj (fields.filter fun p => !p.2.isUndefined)

/-- An HTTP response of the generation endpoint: status code and JSON body. -/
structure HttpResponse where
  status : Nat
  body : JsVal

/-- The POST /api/generate handler (source lines 121-152), instrumented with
the list of upstream calls it performs. The upstream generateContent call is
a parameter returning the response value, or throwing. -/
def handleGenerate (ai : Option Unit) (up : GenRequest → Except JsVal JsVal)
    (body : List (String × JsVal)) : HttpResponse × List GenRequest :=
  match ai with
  | none =>
      (⟨503, .obj [("error", .str "AI service is unavailable. The server is missing required configuration (API Key).")]⟩, [])
  | some _ =>
      if !truthy (promptOf body) then
        (⟨400, .obj [("error", .str "Prompt is required in the request body.")]⟩, [])
      else
        match up (buildRequest (promptOf body)) with
        | .error _ =>
            (⟨500, .obj [("error", .str "Failed to generate content from the AI model due to an internal API error.")]⟩,
             [buildRequest (promptOf body)])
        | .ok resp =>
            match firstCandidateText resp with
            | .error _ =>
                (⟨500, .obj [("error", .str "Failed to generate content from the AI model due to an internal API error.")]⟩,
                 [buildRequest (promptOf body)])
            | .ok generatedText =>
                (⟨200, jsonBody [("text", generatedText)]⟩,
                 [buildRequest (promptOf body)])

/-- Startup client construction (source lines 14-24): the client handle is
set only when the GEMINI API key environment value is truthy. -/
def setupClient (apiKeyEnv : Option String) : Option Unit :=
  match apiKeyEnv with
  | some k => if truthy (JsVal.str k) then some () else none
  | none => none

/-- The listening port (source line 9): process.env.PORT falls back to the
number 8080 through the JavaScript disjunction operator. -/
def PORT (envPORT : Option String) : JsVal :=
  let v := match envPORT with
    | some s => JsVal.str s
    | none => JsVal.undefined
  if truthy v then v else JsVal.num 8080

/-- The response of the root route: status, Content-Type header, HTML body. -/
structure HtmlResponse where
  status : Nat
  contentType : String
  body : String
/-- Leading part of the fixed HTML document sent by the root route, up to the page title text. -/
def indexHtmlPre : String := "
    <!DOCTYPE html>
    <html lang=\"en\">
    <head>
      <meta charset=\"UTF-8\">
      <meta name=\"viewport\" content=\"width=device-width, initial-scale=1.0\">
      <title>Cloud Run AI Generator</title>
      <script src=\"https://cdn.tailwindcss.com\"></script>
      <style>
        body \x7b font-family: 'Inter', sans-serif; \x7d
      </style>
    </head>
    <body class=\"bg-gray-100 flex justify-center items-start min-h-screen p-8\">
      <div class=\"container bg-white p-8 rounded-xl shadow-2xl max-w-lg w-full mt-10\">
        <h1 class=\"text-3xl font-extrabold text-blue-700 mb-4 text-center\">"

/-- Trailing part of the fixed HTML document sent by the root route, after the page title text. -/
def indexHtmlPost : String := "</h1>
        <p class=\"text-gray-600 mb-6 text-center text-sm\">
          This containerized Node.js app hosted on Cloud Run calls the Gemini API securely.
        </p>
        
        <form id=\"ai-form\" class=\"space-y-4\">
          <input type=\"text\" id=\"prompt-input\" placeholder=\"e.g., Write a haiku about serverless computing\" 
                 class=\"w-full p-3 border border-gray-300 rounded-lg focus:ring-blue-500 focus:border-blue-500 transition duration-150 shadow-inner\" required>
          <button type=\"submit\" id=\"submit-button\" 
                  class=\"w-full bg-blue-600 hover:bg-blue-700 text-white font-bold py-3 px-4 rounded-lg transition duration-300 shadow-lg hover:shadow-xl disabled:bg-gray-400\">
            Generate Content
          </button>
        </form>
        
        <div id=\"loading\" class=\"text-center text-blue-600 mt-4 hidden\">
            <svg class=\"animate-spin h-5 w-5 mr-3 inline-block\" xmlns=\"http://www.w3.org/2000/svg\" fill=\"none\" viewBox=\"0 0 24 24\">
              <circle class=\"opacity-25\" cx=\"12\" cy=\"12\" r=\"10\" stroke=\"currentColor\" stroke-width=\"4\"></circle>
              <path class=\"opacity-75\" fill=\"currentColor\" d=\"M4 12a8 8 0 018-8V0C5.373 0 0 5.373 0 12h4z\"></path>
            </svg>
            Generating...
        </div>
        
        <div class=\"mt-8 pt-4 border-t border-gray-200\">
            <h2 class=\"text-xl font-semibold text-gray-700 mb-2\">AI Response:</h2>
            <p id=\"response-output\" class=\"whitespace-pre-wrap text-gray-800 bg-gray-50 p-4 rounded-xl border-2 border-dashed border-blue-200 min-h-24 flex items-center justify-center text-base italic text-center\">
                The AI's response will appear here.
            </p>
        </div>

        <script>
            document.getElementById('ai-form').addEventListener('submit', async (e) => \x7b
                e.preventDefault();
                const prompt = document.getElementById('prompt-input').value;
                const loading = document.getElementById('loading');
                const output = document.getElementById('response-output');
                const button = document.getElementById('submit-button');

                output.textContent = '';
                loading.classList.remove('hidden');
                button.disabled = true;
                output.classList.remove('text-red-600');
                output.classList.remove('italic');

                try \x7b
                    const response = await fetch('/api/generate', \x7b
                        method: 'POST',
                        headers: \x7b 'Content-Type': 'application/json' \x7d,
                        body: JSON.stringify(\x7b prompt: prompt \x7d)
                    \x7d);

                    if (!response.ok) \x7b
                        const errorData = await response.json();
                        throw new Error(errorData.error || `HTTP error! Status: $\x7bresponse.status\x7d`);
                    \x7d

                    const data = await response.json();
                    output.textContent = data.text;
                \x7d catch (error) \x7b
                    console.error('API Error:', error);
                    output.textContent = `Error: $\x7berror.message\x7d. Please ensure the GEMINI_API_KEY is correctly configured on the Cloud Run service.`;
                    output.classList.add('text-red-600');
                    output.classList.add('italic');
                \x7d finally \x7b
                    loading.classList.add('hidden');
                    button.disabled = false;
                \x7d
            \x7d);
        </script>
      </div>
    </body>
    </html>
  "

/-- The fixed HTML document sent by the root route. -/
def indexHtml : String := indexHtmlPre ++ "Serverless AI Content Generator" ++ indexHtmlPost

/-- The GET / handler (source lines 29-118): sets Content-Type text/html and
sends the fixed page; res.send answers with status 200. -/
def handleRoot (_req : JsVal) : HtmlResponse :=
  ⟨200, "text/html", indexHtml⟩

/-- Process-wide state visible to a request: only the client handle, set once
at startup; the handler never writes it. -/
structure ServerState where
  ai : Option Unit

/-- One request/response exchange of the generation endpoint against the
process state; the state comes back unchanged since the handler writes no
process-wide state. -/
def serverStep (up : GenRequest → Except JsVal JsVal) (st : ServerState)
    (body : List (String × JsVal)) : HttpResponse × List GenRequest × ServerState :=
  ((handleGenerate st.ai up body).1, (handleGenerate st.ai up body).2, st)

/-- A concrete well-shaped upstream response used by witnesses. -/
def sampleResp : JsVal :=
  .obj [("candidates", .arr [
    .obj [("content", .obj [("parts", .arr [
      .obj [("text", .str "Cold start, then warm glow...")] ])])] ])]

/-- A concrete upstream response whose first part lacks a text property. -/
def sampleRespNoText : JsVal :=
  .obj [("candidates", .arr [
    .obj [("content", .obj [("parts", .arr [JsVal.obj []])])] ])]

/-- C1: for every non-empty string prompt, with the client configured and the
upstream call succeeding with a first-candidate first-part text, the handler
answers status 200 with a body whose text field equals that text. -/
theorem generate_success_200 (p : String) (up : GenRequest → Except JsVal JsVal)
    (resp : JsVal) (t : String) (hp : p ≠ "")
    (hup : up (buildRequest (.str p)) = .ok resp)
    (ht : firstCandidateText resp = .ok (.str t)) :
    (handleGenerate (some ()) up [("prompt", .str p)]).1 =
      ⟨200, .obj [("text", .str t)]⟩ := by
  simp [handleGenerate, promptOf, truthy, hp, hup, ht, jsonBody, JsVal.isUndefined]

/-- Witness for C1 on the spec's concrete scenario. -/
theorem generate_success_200_witness :
    (handleGenerate (some ()) (fun _ => .ok sampleResp)
        [("prompt", .str "Write a haiku about serverless computing")]).1 =
      ⟨200, .obj [("text", .str "Cold start, then warm glow...")]⟩ :=
  generate_success_200 "Write a haiku about serverless computing"
    (fun _ => .ok sampleResp) sampleResp "Cold start, then warm glow..."
    (by decide) rfl rfl

/-- C2: with no credential configured at startup the handler answers 503 with
the fixed service-unavailable body and performs no upstream call, for every
request body and upstream. -/
theorem generate_unconfigured_503 (up : GenRequest → Except JsVal JsVal)
    (body : List (String × JsVal)) :
    handleGenerate (setupClient none) up body =
      (⟨503, .obj [("error", .str "AI service is unavailable. The server is missing required configuration (API Key).")]⟩, []) :=
  rfl

/-- C3: with the client configured, a falsy prompt field (missing, empty
string, or any other falsy value) yields status 400 with the fixed body and
no upstream call. -/
theorem generate_falsy_prompt_400 (up : GenRequest → Except JsVal JsVal)
    (body : List (String × JsVal)) (h : truthy (promptOf body) = false) :
    handleGenerate (some ()) up body =
      (⟨400, .obj [("error", .str "Prompt is required in the request body.")]⟩, []) := by
  simp [handleGenerate, h]

/-- Witness for C3 on the spec's concrete scenario of an empty JSON body. -/
theorem generate_falsy_prompt_400_witness :
    handleGenerate (some ()) (fun _ => .error JsVal.null) [] =
      (⟨400, .obj [("error", .str "Prompt is required in the request body.")]⟩, []) :=
  generate_falsy_prompt_400 (fun _ => .error JsVal.null) [] rfl

/-- C4: with the client configured and a truthy prompt, an upstream throw or
a malformed response shape yields exactly the fixed generic 500 body. -/
theorem generate_upstream_failure_500 (up : GenRequest → Except JsVal JsVal)
    (body : List (String × JsVal)) (h : truthy (promptOf body) = true)
    (hf : (∃ e, up (buildRequest (promptOf body)) = .error e) ∨
          ∃ resp, up (buildRequest (promptOf body)) = .ok resp ∧
            firstCandidateText resp = .error ()) :
    (handleGenerate (some ()) up body).1 =
      ⟨500, .obj [("error", .str "Failed to generate content from the AI model due to an internal API error.")]⟩ := by
  rcases hf with ⟨e, he⟩ | ⟨resp, hr, ht⟩
  · simp [handleGenerate, h, he]
  · simp [handleGenerate, h, hr, ht]

/-- Witness for C4 with an upstream that throws. -/
theorem generate_upstream_failure_500_witness :
    (handleGenerate (some ()) (fun _ => .error (JsVal.str "boom"))
        [("prompt", JsVal.str "hi")]).1 =
      ⟨500, .obj [("error", .str "Failed to generate content from the AI model due to an internal API error.")]⟩ :=
  generate_upstream_failure_500 (fun _ => .error (JsVal.str "boom"))
    [("prompt", JsVal.str "hi")] rfl (Or.inl ⟨JsVal.str "boom", rfl⟩)

/-- C5: whenever the upstream is reached, it is invoked exactly once, with
model gemini-2.5-flash, a single user message whose single part text is the
request prompt, and a 256 max-output-token cap. -/
theorem generate_upstream_request_fixed (up : GenRequest → Except JsVal JsVal)
    (body : List (String × JsVal)) (h : truthy (promptOf body) = true) :
    (handleGenerate (some ()) up body).2 =
      [{ model := "gemini-2.5-flash"
         contents := [{ role := "user", parts := [{ text := promptOf body }] }]
         config := { maxOutputTokens := 256 } }] := by
  have hb : buildRequest (promptOf body) =
      { model := "gemini-2.5-flash"
        contents := [{ role := "user", parts := [{ text := promptOf body }] }]
        config := { maxOutputTokens := 256 } } := rfl
  rw [← hb]
  cases hu : up (buildRequest (promptOf body)) with
  | error e => simp [handleGenerate, h, hu]
  | ok resp =>
    cases ht : firstCandidateText resp with
    | error u => simp [handleGenerate, h, hu, ht]
    | ok t => simp [handleGenerate, h, hu, ht]

/-- Witness for C5 at a concrete prompt and upstream. -/
theorem generate_upstream_request_fixed_witness :
    (handleGenerate (some ()) (fun _ => .ok JsVal.null)
        [("prompt", JsVal.str "hi")]).2 =
      [{ model := "gemini-2.5-flash"
         contents := [{ role := "user", parts := [{ text := JsVal.str "hi" }] }]
         config := { maxOutputTokens := 256 } }] :=
  generate_upstream_request_fixed (fun _ => .ok JsVal.null)
    [("prompt", JsVal.str "hi")] rfl

/-- C6: the generation endpoint writes no process-wide state, and a second
identical request against the state left by the first, with the same
deterministic upstream, yields the identical response. -/
theorem generate_idempotent (up : GenRequest → Except JsVal JsVal)
    (st : ServerState) (body : List (String × JsVal)) :
    (serverStep up st body).2.2 = st ∧
    (serverStep up (serverStep up st body).2.2 body).1 = (serverStep up st body).1 :=
  ⟨rfl, rfl⟩

/-- C7: every GET / request is answered with status 200, Content-Type
text/html, and the same fixed document, which contains the substring
Serverless AI Content Generator. -/
theorem root_serves_fixed_page :
    (∀ r r' : JsVal, handleRoot r = handleRoot r') ∧
    ∀ r : JsVal, (handleRoot r).status = 200 ∧
      (handleRoot r).contentType = "text/html" ∧
      ∃ s1 s2, (handleRoot r).body = s1 ++ "Serverless AI Content Generator" ++ s2 :=
  ⟨fun _ _ => rfl, fun _ => ⟨rfl, rfl, indexHtmlPre, indexHtmlPost, rfl⟩⟩

/-- C8 counterexample: with the PORT environment value set (to the empty
string), the port is the number 8080, not the environment value. -/
theorem port_empty_string_counterexample :
    PORT (some "") = JsVal.num 8080 ∧ PORT (some "") ≠ JsVal.str "" :=
  ⟨rfl, fun h => by simp [PORT, truthy] at h⟩

/-- C8 amended: the port is the PORT environment value when it is set and
non-empty, and the number 8080 when it is unset or set to the empty string. -/
theorem port_amended :
    (∀ s : String, s ≠ "" → PORT (some s) = JsVal.str s) ∧
    PORT none = JsVal.num 8080 ∧ PORT (some "") = JsVal.num 8080 := by
  refine ⟨fun s hs => ?_, rfl, rfl⟩
  simp [PORT, truthy, hs]

/-- Witness for the amended C8 at a concrete non-empty PORT value. -/
theorem port_amended_witness : PORT (some "3000") = JsVal.str "3000" :=
  port_amended.1 "3000" (by decide)

/-- C9: a truthy non-string prompt passes validation: the response is never a
400, and the value is forwarded unchanged as the single message part text of
the upstream call. -/
theorem generate_nonstring_prompt_forwarded (up : GenRequest → Except JsVal JsVal)
    (body : List (String × JsVal)) (h : truthy (promptOf body) = true)
    (_hs : ∀ s : String, promptOf body ≠ JsVal.str s) :
    (handleGenerate (some ()) up body).1.status ≠ 400 ∧
    (handleGenerate (some ()) up body).2 = [buildRequest (promptOf body)] := by
  constructor
  · cases hu : up (buildRequest (promptOf body)) with
    | error e => simp [handleGenerate, h, hu]
    | ok resp =>
      cases ht : firstCandidateText resp with
      | error u => simp [handleGenerate, h, hu, ht]
      | ok t => simp [handleGenerate, h, hu, ht]
  · cases hu : up (buildRequest (promptOf body)) with
    | error e => simp [handleGenerate, h, hu]
    | ok resp =>
      cases ht : firstCandidateText resp with
      | error u => simp [handleGenerate, h, hu, ht]
      | ok t => simp [handleGenerate, h, hu, ht]

/-- Witness for C9 with a numeric prompt value. -/
theorem generate_nonstring_prompt_forwarded_witness :
    (handleGenerate (some ()) (fun _ => .ok sampleResp)
        [("prompt", JsVal.num 5)]).1.status ≠ 400 ∧
    (handleGenerate (some ()) (fun _ => .ok sampleResp)
        [("prompt", JsVal.num 5)]).2 = [buildRequest (JsVal.num 5)] :=
  generate_nonstring_prompt_forwarded (fun _ => .ok sampleResp)
    [("prompt", JsVal.num 5)] rfl (fun s hcontra => by simp [promptOf] at hcontra)

/-- C10: when the extraction reaches a first part that lacks a text property,
the handler answers status 200 and the serialized body has no text field. -/
theorem generate_missing_text_200 (up : GenRequest → Except JsVal JsVal)
    (body : List (String × JsVal)) (resp : JsVal)
    (h : truthy (promptOf body) = true)
    (hup : up (buildRequest (promptOf body)) = .ok resp)
    (ht : firstCandidateText resp = .ok JsVal.undefined) :
    (handleGenerate (some ()) up body).1 = ⟨200, JsVal.obj []⟩ := by
  simp [handleGenerate, h, hup, ht, jsonBody, JsVal.isUndefined]

/-- Witness for C10 with a concrete part object lacking a text property. -/
theorem generate_missing_text_200_witness :
    (handleGenerate (some ()) (fun _ => .ok sampleRespNoText)
        [("prompt", JsVal.str "hi")]).1 = ⟨200, JsVal.obj []⟩ :=
  generate_missing_text_200 (fun _ => .ok sampleRespNoText)
    [("prompt", JsVal.str "hi")] sampleRespNoText rfl rfl rfl
